import Mathlib

/-!
# nRF5340 DK dual button / LED toggle: debounce-and-toggle handlers

Shallow embedding of `src/main.c`.  The two interrupt callbacks
`button1_pressed` and `button2_pressed` are translated statement by statement
into functions on the file-scope variables (`Globals`).  What a callback asks
of its environment is made explicit:

* the value returned by `k_uptime_get()` is the argument `now`;
* the value returned by `gpio_pin_set_dt` (if the call is reached) is the
  argument `ret`; the C code discards it;
* the calls to `gpio_pin_set_dt` and `LOG_INF` are recorded, in program order,
  in the list of `Effect`s returned next to the new globals.

`int64_t` values are integers; the subtraction in the debounce test is the
two's-complement one (`sub64`), which agrees with the mathematical difference
whenever that difference is representable.
-/

namespace ButtonLedToggle

/-! ## Machine integers -/

/-- Smallest `int64_t`. -/
def INT64_MIN : Int := -(2 ^ 63)

/-- Largest `int64_t`. -/
def INT64_MAX : Int := 2 ^ 63 - 1

/-- Reduction of an integer to its `int64_t` two's-complement representative. -/
def wrap64 (x : Int) : Int := (x + 2 ^ 63) % 2 ^ 64 - 2 ^ 63

/-- The C expression `a - b` on `int64_t` operands. -/
def sub64 (a b : Int) : Int := wrap64 (a - b)

/-- Membership in the range of values `k_uptime_get()` can return: a
non-negative `int64_t` number of milliseconds. -/
def isUptime (t : Int) : Prop := 0 ≤ t ∧ t ≤ INT64_MAX

instance (t : Int) : Decidable (isUptime t) := by
  unfold isUptime; exact inferInstance

/-! ## Constants and devices of `main.c` -/

/-- Debounce time in milliseconds (`#define DEBOUNCE_TIME_MS 50`). -/
def DEBOUNCE_TIME_MS : Int := 50

/-- The four `struct gpio_dt_spec` objects of the file. -/
inductive GpioSpec
  | led1
  | led2
  | button1
  | button2
  deriving DecidableEq, Repr

/-- Severity of a log record (`LOG_ERR`, `LOG_INF` are the two used in the file). -/
inductive LogLevel
  | ERR
  | INF
  deriving DecidableEq, Repr

/-- Calls a callback makes to its collaborators.  A log record keeps the
format string and the string substituted for its `%s`. -/
inductive Effect
  | gpio_pin_set_dt (spec : GpioSpec) (value : Bool) (ret : Int)
  | log (level : LogLevel) (fmt : String) (arg : String)
  deriving DecidableEq, Repr

/-- The mutable file-scope variables read or written by the callbacks. -/
structure Globals where
  led1_state : Bool
  led2_state : Bool
  last_time_button1 : Int
  last_time_button2 : Int
  deriving DecidableEq, Repr

/-- Values given by the static initialisers
(`led1_state = false`, ..., `last_time_button2 = 0`). -/
def init : Globals :=
  { led1_state := false, led2_state := false,
    last_time_button1 := 0, last_time_button2 := 0 }

/-! ## The callbacks -/

/-- Callback `button1_pressed` of `main.c` (lines 48-63). -/
def button1_pressed (now : Int) (ret : Int) (g : Globals) : Globals × List Effect :=
  if sub64 now g.last_time_button1 < DEBOUNCE_TIME_MS then
    (g, [])
  else
    let g1 := { g with last_time_button1 := now }
    let g2 := { g1 with led1_state := !g1.led1_state }
    (g2, [Effect.gpio_pin_set_dt GpioSpec.led1 g2.led1_state ret,
          Effect.log LogLevel.INF "Button 1 pressed, LED1 is %s"
            (if g2.led1_state then "ON" else "OFF")])

/-- Callback `button2_pressed` of `main.c` (lines 65-80). -/
def button2_pressed (now : Int) (ret : Int) (g : Globals) : Globals × List Effect :=
  if sub64 now g.last_time_button2 < DEBOUNCE_TIME_MS then
    (g, [])
  else
    let g1 := { g with last_time_button2 := now }
    let g2 := { g1 with led2_state := !g1.led2_state }
    (g2, [Effect.gpio_pin_set_dt GpioSpec.led2 g2.led2_state ret,
          Effect.log LogLevel.INF "Button 2 pressed, LED2 is %s"
            (if g2.led2_state then "ON" else "OFF")])

/-! ## Event delivery

`main` registers `button1_pressed` for the pin of `button1` and
`button2_pressed` for the pin of `button2` (`gpio_init_callback`,
`gpio_add_callback`); an edge on a button runs the callback registered for it.
-/

/-- The two input lines that have a callback. -/
inductive Button
  | button1
  | button2
  deriving DecidableEq, Repr

/-- One interrupt: the line that fired, the uptime the callback reads, and the
return code `gpio_pin_set_dt` would give it. -/
structure Event where
  button : Button
  now : Int
  ret : Int
  deriving DecidableEq, Repr

/-- Runs the callback registered for the line of the event. -/
def dispatch (g : Globals) (e : Event) : Globals × List Effect :=
  match e.button with
  | Button.button1 => button1_pressed e.now e.ret g
  | Button.button2 => button2_pressed e.now e.ret g

/-- Delivers a finite sequence of events in order, collecting the effects. -/
def run : Globals → List Event → Globals × List Effect
  | g, [] => (g, [])
  | g, e :: rest =>
    let r1 := dispatch g e
    let r2 := run r1.1 rest
    (r2.1, r1.2 ++ r2.2)

/-- Debounce check of the callback of `e.button` in globals `g`: true when the
callback does not take the early `return`. -/
def accepted (g : Globals) (e : Event) : Bool :=
  match e.button with
  | Button.button1 => !decide (sub64 e.now g.last_time_button1 < DEBOUNCE_TIME_MS)
  | Button.button2 => !decide (sub64 e.now g.last_time_button2 < DEBOUNCE_TIME_MS)

/-- Number of events on line `b` that pass the debounce check while the
sequence is delivered from `g`. -/
def acceptedCount (b : Button) : Globals → List Event → Nat
  | _, [] => 0
  | g, e :: rest =>
    (if e.button = b ∧ accepted g e = true then 1 else 0)
      + acceptedCount b (dispatch g e).1 rest

/-! ## Observations on effect lists -/

/-- Writes to a given output line. -/
def isWriteTo (spec : GpioSpec) : Effect → Bool
  | Effect.gpio_pin_set_dt s _ _ => decide (s = spec)
  | Effect.log _ _ _ => false

/-- Log records, of any severity. -/
def isLog : Effect → Bool
  | Effect.gpio_pin_set_dt _ _ _ => false
  | Effect.log _ _ _ => true

/-- Log records of severity `LOG_ERR`. -/
def isErrLog : Effect → Bool
  | Effect.gpio_pin_set_dt _ _ _ => false
  | Effect.log l _ _ => decide (l = LogLevel.ERR)

/-- Format string of the record `button1_pressed` logs. -/
def fmt1 : String := "Button 1 pressed, LED1 is %s"

/-- Format string of the record `button2_pressed` logs. -/
def fmt2 : String := "Button 2 pressed, LED2 is %s"

/-- Log records about channel 1: those with the format string of `button1_pressed`. -/
def isLogOf1 : Effect → Bool
  | Effect.gpio_pin_set_dt _ _ _ => false
  | Effect.log _ f _ => decide (f = fmt1)

/-- Log records about channel 2: those with the format string of `button2_pressed`. -/
def isLogOf2 : Effect → Bool
  | Effect.gpio_pin_set_dt _ _ _ => false
  | Effect.log _ f _ => decide (f = fmt2)

/-- Effects that concern channel 1: writes to `led1` and logs about channel 1. -/
def ofChannel1 (x : Effect) : Bool := isWriteTo GpioSpec.led1 x || isLogOf1 x

/-- Effects that concern channel 2: writes to `led2` and logs about channel 2. -/
def ofChannel2 (x : Effect) : Bool := isWriteTo GpioSpec.led2 x || isLogOf2 x

/-- State of channel 1: the two variables `button1_pressed` assigns. -/
def channel1 (g : Globals) : Bool × Int := (g.led1_state, g.last_time_button1)

/-- State of channel 2: the two variables `button2_pressed` assigns. -/
def channel2 (g : Globals) : Bool × Int := (g.led2_state, g.last_time_button2)

/-- Events of one input line. -/
def onButton (b : Button) (e : Event) : Bool := decide (e.button = b)

/-! ## Arithmetic of the debounce test -/

theorem wrap64_of_inRange (x : Int) (h1 : INT64_MIN ≤ x) (h2 : x ≤ INT64_MAX) :
    wrap64 x = x := by
  unfold wrap64
  unfold INT64_MIN at h1
  unfold INT64_MAX at h2
  rw [Int.emod_eq_of_lt (by omega) (by omega)]
  omega

/-- On uptime values the machine subtraction is the mathematical one. -/
theorem sub64_of_uptime (a b : Int) (ha : isUptime a) (hb : isUptime b) :
    sub64 a b = a - b := by
  unfold isUptime INT64_MAX at ha hb
  unfold sub64
  apply wrap64_of_inRange
  · unfold INT64_MIN; omega
  · unfold INT64_MAX; omega

/-! ## The two branches of each callback -/

theorem button1_pressed_of_lt (g : Globals) (now ret : Int)
    (h : sub64 now g.last_time_button1 < DEBOUNCE_TIME_MS) :
    button1_pressed now ret g = (g, []) := by
  simp [button1_pressed, h]

theorem button1_pressed_of_ge (g : Globals) (now ret : Int)
    (h : DEBOUNCE_TIME_MS ≤ sub64 now g.last_time_button1) :
    button1_pressed now ret g =
      ({ g with last_time_button1 := now, led1_state := !g.led1_state },
       [Effect.gpio_pin_set_dt GpioSpec.led1 (!g.led1_state) ret,
        Effect.log LogLevel.INF "Button 1 pressed, LED1 is %s"
          (if (!g.led1_state) = true then "ON" else "OFF")]) := by
  simp [button1_pressed, not_lt.mpr h]

theorem button2_pressed_of_lt (g : Globals) (now ret : Int)
    (h : sub64 now g.last_time_button2 < DEBOUNCE_TIME_MS) :
    button2_pressed now ret g = (g, []) := by
  simp [button2_pressed, h]

theorem button2_pressed_of_ge (g : Globals) (now ret : Int)
    (h : DEBOUNCE_TIME_MS ≤ sub64 now g.last_time_button2) :
    button2_pressed now ret g =
      ({ g with last_time_button2 := now, led2_state := !g.led2_state },
       [Effect.gpio_pin_set_dt GpioSpec.led2 (!g.led2_state) ret,
        Effect.log LogLevel.INF "Button 2 pressed, LED2 is %s"
          (if (!g.led2_state) = true then "ON" else "OFF")]) := by
  simp [button2_pressed, not_lt.mpr h]

/-- From the initial value `0` of a debounce timestamp, the debounce test of
an uptime value compares the value itself with the window. -/
theorem sub64_zero_of_uptime (now : Int) (h : isUptime now) : sub64 now 0 = now := by
  rw [sub64_of_uptime now 0 h (by decide)]
  simp

/-! ## C5, C6: one invocation -/

/-- C5 (accept step): in any globals, when the difference the callback
computes, `now - last_time_button1`, is at least `DEBOUNCE_TIME_MS`,
`button1_pressed` stores `now` in `last_time_button1`, negates `led1_state`,
and its effects are exactly one `gpio_pin_set_dt` on `led1` carrying the new
`led1_state`, followed by exactly one `LOG_INF` record with the channel-1
format string whose argument is ON for a new state of true and OFF for
false. -/
theorem C5_accept_step (g : Globals) (now ret : Int)
    (h : DEBOUNCE_TIME_MS ≤ sub64 now g.last_time_button1) :
    (button1_pressed now ret g).1.last_time_button1 = now
    ∧ (button1_pressed now ret g).1.led1_state = (!g.led1_state)
    ∧ (button1_pressed now ret g).2 =
        [Effect.gpio_pin_set_dt GpioSpec.led1 (button1_pressed now ret g).1.led1_state ret,
         Effect.log LogLevel.INF "Button 1 pressed, LED1 is %s"
           (if (button1_pressed now ret g).1.led1_state = true then "ON" else "OFF")]
    ∧ ((button1_pressed now ret g).2.filter (isWriteTo GpioSpec.led1)).length = 1
    ∧ ((button1_pressed now ret g).2.filter isLog).length = 1 := by
  rw [button1_pressed_of_ge g now ret h]
  simp [isWriteTo, isLog]

theorem C5_accept_step_witness :
    DEBOUNCE_TIME_MS ≤ sub64 100 init.last_time_button1
    ∧ (button1_pressed 100 0 init).1.last_time_button1 = 100
    ∧ (button1_pressed 100 0 init).1.led1_state = (!init.led1_state)
    ∧ (button1_pressed 100 0 init).2 =
        [Effect.gpio_pin_set_dt GpioSpec.led1 (button1_pressed 100 0 init).1.led1_state 0,
         Effect.log LogLevel.INF "Button 1 pressed, LED1 is %s"
           (if (button1_pressed 100 0 init).1.led1_state = true then "ON" else "OFF")]
    ∧ ((button1_pressed 100 0 init).2.filter (isWriteTo GpioSpec.led1)).length = 1
    ∧ ((button1_pressed 100 0 init).2.filter isLog).length = 1 :=
  ⟨by decide, C5_accept_step init 100 0 (by decide)⟩

/-- C6 (reject step): in any globals, when the difference the callback
computes, `now - last_time_button1`, is below `DEBOUNCE_TIME_MS`,
`button1_pressed` returns the globals unchanged (so `led1_state` and
`last_time_button1` keep their values) and performs no effect at all: no
`gpio_pin_set_dt` call and no log record. -/
theorem C6_reject_step (g : Globals) (now ret : Int)
    (h : sub64 now g.last_time_button1 < DEBOUNCE_TIME_MS) :
    (button1_pressed now ret g).1 = g
    ∧ (button1_pressed now ret g).1.led1_state = g.led1_state
    ∧ (button1_pressed now ret g).1.last_time_button1 = g.last_time_button1
    ∧ (button1_pressed now ret g).2 = [] := by
  rw [button1_pressed_of_lt g now ret h]
  simp

theorem C6_reject_step_witness :
    sub64 40 (button1_pressed 100 0 init).1.last_time_button1 < DEBOUNCE_TIME_MS
    ∧ (button1_pressed 40 0 (button1_pressed 100 0 init).1).1 = (button1_pressed 100 0 init).1
    ∧ (button1_pressed 40 0 (button1_pressed 100 0 init).1).1.led1_state
        = (button1_pressed 100 0 init).1.led1_state
    ∧ (button1_pressed 40 0 (button1_pressed 100 0 init).1).1.last_time_button1
        = (button1_pressed 100 0 init).1.last_time_button1
    ∧ (button1_pressed 40 0 (button1_pressed 100 0 init).1).2 = [] :=
  ⟨by decide, C6_reject_step (button1_pressed 100 0 init).1 40 0 (by decide)⟩

/-! ## C1, C2, C3: the first events after initialisation

The debounce timestamps start at `0`, an ordinary uptime value, so the first
event is tested against the instant `0` like any later event is tested
against the previous accepted one.
-/

/-- C1, as stated, fails: the first event on the freshly initialised channel,
read at uptime 10, is rejected by `button1_pressed` (`10 - 0 < 50`):
`led1_state` stays false and `last_time_button1` stays 0.  So it is not true
that every uptime value is accepted as first event. -/
theorem C1_first_event_at_10_rejected :
    isUptime 10
    ∧ (button1_pressed 10 0 init).1.led1_state = false
    ∧ (button1_pressed 10 0 init).1.last_time_button1 = 0
    ∧ (button1_pressed 10 0 init).2 = []
    ∧ ¬ (∀ now ret : Int, isUptime now →
          (button1_pressed now ret init).1.led1_state = true
          ∧ (button1_pressed now ret init).1.last_time_button1 = now) := by
  refine ⟨by decide, by decide, by decide, by decide, ?_⟩
  intro h
  exact absurd (h 10 0 (by decide)).1 (by decide)

/-- C1 (amended): for every uptime value `now` that is at least
`DEBOUNCE_TIME_MS`, the first event on the freshly initialised globals is
accepted: `button1_pressed` makes `led1_state` true and `last_time_button1`
equal to `now`, and `button2_pressed` does the same on channel 2. -/
theorem C1_first_event_accepted_from_window (now ret : Int)
    (h50 : DEBOUNCE_TIME_MS ≤ now) (hmax : now ≤ INT64_MAX) :
    ((button1_pressed now ret init).1.led1_state = true
      ∧ (button1_pressed now ret init).1.last_time_button1 = now)
    ∧ ((button2_pressed now ret init).1.led2_state = true
      ∧ (button2_pressed now ret init).1.last_time_button2 = now) := by
  have hup : isUptime now := ⟨by unfold DEBOUNCE_TIME_MS at h50; omega, hmax⟩
  have h0 : sub64 now 0 = now := sub64_zero_of_uptime now hup
  have h1 : DEBOUNCE_TIME_MS ≤ sub64 now init.last_time_button1 := by
    show DEBOUNCE_TIME_MS ≤ sub64 now 0
    rw [h0]; exact h50
  have h2 : DEBOUNCE_TIME_MS ≤ sub64 now init.last_time_button2 := by
    show DEBOUNCE_TIME_MS ≤ sub64 now 0
    rw [h0]; exact h50
  rw [button1_pressed_of_ge init now ret h1, button2_pressed_of_ge init now ret h2]
  simp [init]

theorem C1_first_event_accepted_from_window_witness :
    DEBOUNCE_TIME_MS ≤ 50 ∧ (50 : Int) ≤ INT64_MAX
    ∧ ((button1_pressed 50 0 init).1.led1_state = true
      ∧ (button1_pressed 50 0 init).1.last_time_button1 = 50)
    ∧ ((button2_pressed 50 0 init).1.led2_state = true
      ∧ (button2_pressed 50 0 init).1.last_time_button2 = 50) :=
  ⟨by decide, by decide, C1_first_event_accepted_from_window 50 0 (by decide) (by decide)⟩

/-- C2, as stated, fails: with `t1 = 10` and `t2 = 55` (`t1 < t2`,
`t2 - t1 = 45 < 50`) delivered to `button1_pressed` from the initial globals,
the event at `t1` does not flip `led1_state` (it is rejected against the
initial timestamp 0) and the event at `t2` does flip it.  With `t1 = 10` and
`t2 = 40` neither event is accepted, so there is no flip at all. -/
theorem C2_suppression_fails_at_10_55 :
    isUptime 10 ∧ isUptime 55 ∧ (10 : Int) < 55 ∧ (55 : Int) - 10 < DEBOUNCE_TIME_MS
    ∧ (button1_pressed 10 0 init).1.led1_state = init.led1_state
    ∧ (button1_pressed 55 0 (button1_pressed 10 0 init).1).1.led1_state
        ≠ (button1_pressed 10 0 init).1.led1_state
    ∧ acceptedCount Button.button1 init
        [Event.mk Button.button1 10 0, Event.mk Button.button1 40 0] = 0
    ∧ ¬ (∀ t1 t2 r1 r2 : Int, isUptime t1 → isUptime t2 → t1 < t2 →
          t2 - t1 < DEBOUNCE_TIME_MS →
          (button1_pressed t1 r1 init).1.led1_state ≠ init.led1_state
          ∧ (button1_pressed t2 r2 (button1_pressed t1 r1 init).1).1.led1_state
              = (button1_pressed t1 r1 init).1.led1_state) := by
  refine ⟨by decide, by decide, by decide, by decide, by decide, by decide, by decide, ?_⟩
  intro h
  exact absurd (h 10 55 0 0 (by decide) (by decide) (by decide) (by decide)).1 (by decide)

/-- C2 (amended): for event times `t1 < t2` with `t2 - t1 < DEBOUNCE_TIME_MS`
and `t1` at least `DEBOUNCE_TIME_MS` (both uptime values), delivered to
`button1_pressed` from the initial globals, `led1_state` flips exactly once:
the event at `t1` flips it to true and records `t1`, and the event at `t2`
leaves the globals unchanged and has no effect. -/
theorem C2_debounce_suppression (t1 t2 r1 r2 : Int)
    (h50 : DEBOUNCE_TIME_MS ≤ t1) (hlt : t1 < t2) (hwin : t2 - t1 < DEBOUNCE_TIME_MS)
    (hmax : t2 ≤ INT64_MAX) :
    (button1_pressed t1 r1 init).1.led1_state = true
    ∧ (button1_pressed t1 r1 init).1.last_time_button1 = t1
    ∧ button1_pressed t2 r2 (button1_pressed t1 r1 init).1
        = ((button1_pressed t1 r1 init).1, [])
    ∧ (run init [Event.mk Button.button1 t1 r1, Event.mk Button.button1 t2 r2]).1.led1_state
        = true
    ∧ acceptedCount Button.button1 init
        [Event.mk Button.button1 t1 r1, Event.mk Button.button1 t2 r2] = 1 := by
  have hd : DEBOUNCE_TIME_MS = 50 := rfl
  have hup1 : isUptime t1 := ⟨by omega, by omega⟩
  have hup2 : isUptime t2 := ⟨by omega, hmax⟩
  have h1 : DEBOUNCE_TIME_MS ≤ sub64 t1 init.last_time_button1 := by
    show DEBOUNCE_TIME_MS ≤ sub64 t1 0
    rw [sub64_zero_of_uptime t1 hup1]; exact h50
  have e1 := button1_pressed_of_ge init t1 r1 h1
  have h2 : sub64 t2 (button1_pressed t1 r1 init).1.last_time_button1 < DEBOUNCE_TIME_MS := by
    rw [e1]
    show sub64 t2 t1 < DEBOUNCE_TIME_MS
    rw [sub64_of_uptime t2 t1 hup2 hup1]; exact hwin
  have e2 := button1_pressed_of_lt (button1_pressed t1 r1 init).1 t2 r2 h2
  have hacc1 : ¬ (sub64 t1 init.last_time_button1 < DEBOUNCE_TIME_MS) := not_lt.mpr h1
  refine ⟨by rw [e1]; rfl, by rw [e1], e2, ?_, ?_⟩
  · simp only [run, dispatch]
    rw [e2, e1]; rfl
  · simp only [acceptedCount, dispatch, accepted]
    simp [hacc1, h2]

theorem C2_debounce_suppression_witness :
    DEBOUNCE_TIME_MS ≤ 60 ∧ (60 : Int) < 90 ∧ (90 : Int) - 60 < DEBOUNCE_TIME_MS
    ∧ (90 : Int) ≤ INT64_MAX
    ∧ (button1_pressed 60 0 init).1.led1_state = true
    ∧ (button1_pressed 60 0 init).1.last_time_button1 = 60
    ∧ button1_pressed 90 0 (button1_pressed 60 0 init).1
        = ((button1_pressed 60 0 init).1, [])
    ∧ (run init [Event.mk Button.button1 60 0, Event.mk Button.button1 90 0]).1.led1_state
        = true
    ∧ acceptedCount Button.button1 init
        [Event.mk Button.button1 60 0, Event.mk Button.button1 90 0] = 1 :=
  ⟨by decide, by decide, by decide, by decide,
   C2_debounce_suppression 60 90 0 0 (by decide) (by decide) (by decide) (by decide)⟩

/-- C3, as stated, fails: with `t1 = 10` and `t2 = 70` (`t1 < t2`,
`t2 - t1 = 60 >= 50`) delivered to `button1_pressed` from the initial globals,
the event at `t1` does not flip `led1_state` (rejected against the initial
timestamp 0), only the event at `t2` does, and `led1_state` ends true, not
false. -/
theorem C3_pass_through_fails_at_10_70 :
    isUptime 10 ∧ isUptime 70 ∧ (10 : Int) < 70 ∧ DEBOUNCE_TIME_MS ≤ (70 : Int) - 10
    ∧ (button1_pressed 10 0 init).1.led1_state = init.led1_state
    ∧ (button1_pressed 70 0 (button1_pressed 10 0 init).1).1.led1_state = true
    ∧ ¬ (∀ t1 t2 r1 r2 : Int, isUptime t1 → isUptime t2 → t1 < t2 →
          DEBOUNCE_TIME_MS ≤ t2 - t1 →
          (button1_pressed t1 r1 init).1.led1_state = (!init.led1_state)
          ∧ (button1_pressed t2 r2 (button1_pressed t1 r1 init).1).1.led1_state
              = init.led1_state
          ∧ (button1_pressed t2 r2 (button1_pressed t1 r1 init).1).1.last_time_button1
              = t2) := by
  refine ⟨by decide, by decide, by decide, by decide, by decide, by decide, ?_⟩
  intro h
  exact absurd (h 10 70 0 0 (by decide) (by decide) (by decide) (by decide)).2.1 (by decide)

/-- C3 (amended): for event times `t1 < t2` with
`t2 - t1 >= DEBOUNCE_TIME_MS` and `t1` at least `DEBOUNCE_TIME_MS` (both
uptime values), delivered to `button1_pressed` from the initial globals, both
events flip `led1_state`: it is true after `t1`, false (its starting value)
after `t2`, and `last_time_button1` ends equal to `t2`. -/
theorem C3_debounce_pass_through (t1 t2 r1 r2 : Int)
    (h50 : DEBOUNCE_TIME_MS ≤ t1) (hlt : t1 < t2) (hwin : DEBOUNCE_TIME_MS ≤ t2 - t1)
    (hmax : t2 ≤ INT64_MAX) :
    (button1_pressed t1 r1 init).1.led1_state = true
    ∧ (button1_pressed t2 r2 (button1_pressed t1 r1 init).1).1.led1_state = false
    ∧ (button1_pressed t2 r2 (button1_pressed t1 r1 init).1).1.last_time_button1 = t2
    ∧ acceptedCount Button.button1 init
        [Event.mk Button.button1 t1 r1, Event.mk Button.button1 t2 r2] = 2 := by
  have hd : DEBOUNCE_TIME_MS = 50 := rfl
  have hup1 : isUptime t1 := ⟨by omega, le_trans (le_of_lt hlt) hmax⟩
  have hup2 : isUptime t2 := ⟨by omega, hmax⟩
  have h1 : DEBOUNCE_TIME_MS ≤ sub64 t1 init.last_time_button1 := by
    show DEBOUNCE_TIME_MS ≤ sub64 t1 0
    rw [sub64_zero_of_uptime t1 hup1]; exact h50
  have e1 := button1_pressed_of_ge init t1 r1 h1
  have h2 : DEBOUNCE_TIME_MS ≤ sub64 t2 (button1_pressed t1 r1 init).1.last_time_button1 := by
    rw [e1]
    show DEBOUNCE_TIME_MS ≤ sub64 t2 t1
    rw [sub64_of_uptime t2 t1 hup2 hup1]; exact hwin
  have e2 := button1_pressed_of_ge (button1_pressed t1 r1 init).1 t2 r2 h2
  refine ⟨by rw [e1]; rfl, ?_, by rw [e2], ?_⟩
  · rw [e2]
    show (!(button1_pressed t1 r1 init).1.led1_state) = false
    rw [e1]; rfl
  · simp only [acceptedCount, dispatch, accepted]
    simp [not_lt.mpr h1, not_lt.mpr h2]

theorem C3_debounce_pass_through_witness :
    DEBOUNCE_TIME_MS ≤ 60 ∧ (60 : Int) < 130 ∧ DEBOUNCE_TIME_MS ≤ (130 : Int) - 60
    ∧ (130 : Int) ≤ INT64_MAX
    ∧ (button1_pressed 60 0 init).1.led1_state = true
    ∧ (button1_pressed 130 0 (button1_pressed 60 0 init).1).1.led1_state = false
    ∧ (button1_pressed 130 0 (button1_pressed 60 0 init).1).1.last_time_button1 = 130
    ∧ acceptedCount Button.button1 init
        [Event.mk Button.button1 60 0, Event.mk Button.button1 130 0] = 2 :=
  ⟨by decide, by decide, by decide, by decide,
   C3_debounce_pass_through 60 130 0 0 (by decide) (by decide) (by decide) (by decide)⟩

/-! ## C4: parity of the accepted events -/

/-- One delivery flips `led1_state` exactly when the event is an accepted
event on button 1. -/
theorem dispatch_led1_state (g : Globals) (e : Event) :
    (dispatch g e).1.led1_state
      = xor g.led1_state (decide (e.button = Button.button1 ∧ accepted g e = true)) := by
  rcases e with ⟨b, now, ret⟩
  cases b
  · by_cases h : sub64 now g.last_time_button1 < DEBOUNCE_TIME_MS
    · simp [dispatch, accepted, button1_pressed, h]
    · simp [dispatch, accepted, button1_pressed, h]
  · by_cases h : sub64 now g.last_time_button2 < DEBOUNCE_TIME_MS
    · simp [dispatch, accepted, button2_pressed, h]
    · simp [dispatch, accepted, button2_pressed, h]

/-- One delivery flips `led2_state` exactly when the event is an accepted
event on button 2. -/
theorem dispatch_led2_state (g : Globals) (e : Event) :
    (dispatch g e).1.led2_state
      = xor g.led2_state (decide (e.button = Button.button2 ∧ accepted g e = true)) := by
  rcases e with ⟨b, now, ret⟩
  cases b
  · by_cases h : sub64 now g.last_time_button1 < DEBOUNCE_TIME_MS
    · simp [dispatch, accepted, button1_pressed, h]
    · simp [dispatch, accepted, button1_pressed, h]
  · by_cases h : sub64 now g.last_time_button2 < DEBOUNCE_TIME_MS
    · simp [dispatch, accepted, button2_pressed, h]
    · simp [dispatch, accepted, button2_pressed, h]

theorem xor_parity_step (a c : Bool) (n : Nat) :
    xor (xor a c) (decide (n % 2 = 1))
      = xor a (decide (((if c = true then 1 else 0) + n) % 2 = 1)) := by
  rcases Nat.mod_two_eq_zero_or_one n with h | h
  · have h1 : (1 + n) % 2 = 1 := by omega
    cases a <;> cases c <;> simp [h, h1]
  · have h1 : (1 + n) % 2 = 0 := by omega
    cases a <;> cases c <;> simp [h, h1]

theorem run_led1_parity (evs : List Event) :
    ∀ g : Globals, (run g evs).1.led1_state
      = xor g.led1_state (decide (acceptedCount Button.button1 g evs % 2 = 1)) := by
  induction evs with
  | nil => intro g; simp [run, acceptedCount]
  | cons e rest ih =>
    intro g
    have hs := xor_parity_step g.led1_state
      (decide (e.button = Button.button1 ∧ accepted g e = true))
      (acceptedCount Button.button1 (dispatch g e).1 rest)
    simp only [decide_eq_true_eq] at hs
    show (run (dispatch g e).1 rest).1.led1_state = _
    rw [ih (dispatch g e).1, dispatch_led1_state g e]
    simp only [acceptedCount]
    exact hs

theorem run_led2_parity (evs : List Event) :
    ∀ g : Globals, (run g evs).1.led2_state
      = xor g.led2_state (decide (acceptedCount Button.button2 g evs % 2 = 1)) := by
  induction evs with
  | nil => intro g; simp [run, acceptedCount]
  | cons e rest ih =>
    intro g
    have hs := xor_parity_step g.led2_state
      (decide (e.button = Button.button2 ∧ accepted g e = true))
      (acceptedCount Button.button2 (dispatch g e).1 rest)
    simp only [decide_eq_true_eq] at hs
    show (run (dispatch g e).1 rest).1.led2_state = _
    rw [ih (dispatch g e).1, dispatch_led2_state g e]
    simp only [acceptedCount]
    exact hs

/-- C4 (parity invariant): for every finite sequence of events delivered from
the initial globals, `led1_state` is true exactly when the number of events
accepted by `button1_pressed` (those passing its debounce check) is odd, and
`led2_state` is true exactly when the number accepted by `button2_pressed`
is odd. -/
theorem C4_parity_invariant (evs : List Event) :
    ((run init evs).1.led1_state = true ↔ Odd (acceptedCount Button.button1 init evs))
    ∧ ((run init evs).1.led2_state = true ↔ Odd (acceptedCount Button.button2 init evs)) := by
  constructor
  · rw [run_led1_parity evs init, Nat.odd_iff]
    simp [init]
  · rw [run_led2_parity evs init, Nat.odd_iff]
    simp [init]

/-! ## C7, C8: the return code of the output write -/

/-- The globals a callback leaves do not depend on what `gpio_pin_set_dt`
returns, and neither do the log records it emits. -/
theorem button1_pressed_ret_irrelevant (g : Globals) (now ret ret2 : Int) :
    (button1_pressed now ret g).1 = (button1_pressed now ret2 g).1
    ∧ (button1_pressed now ret g).2.filter isLog
        = (button1_pressed now ret2 g).2.filter isLog := by
  by_cases h : sub64 now g.last_time_button1 < DEBOUNCE_TIME_MS
  · simp [button1_pressed, h]
  · simp [button1_pressed, h, isLog]

theorem button2_pressed_ret_irrelevant (g : Globals) (now ret ret2 : Int) :
    (button2_pressed now ret g).1 = (button2_pressed now ret2 g).1
    ∧ (button2_pressed now ret g).2.filter isLog
        = (button2_pressed now ret2 g).2.filter isLog := by
  by_cases h : sub64 now g.last_time_button2 < DEBOUNCE_TIME_MS
  · simp [button2_pressed, h]
  · simp [button2_pressed, h, isLog]

/-- C7 (write-failure tolerance of the state): at an accepted event of
`button1_pressed` whose `gpio_pin_set_dt` call returns an error (`ret < 0`),
`led1_state` holds the flipped value and `last_time_button1` the event time
on return; the resulting globals are the same for every other return code;
and the next accepted event (read at `now2`, its write returning `ret2`)
flips `led1_state` from that value, back to the value before the failed
write. -/
theorem C7_write_failure_state (g : Globals) (now ret now2 ret2 : Int)
    (hacc : DEBOUNCE_TIME_MS ≤ sub64 now g.last_time_button1) (hret : ret < 0)
    (hacc2 : DEBOUNCE_TIME_MS ≤ sub64 now2 now) :
    (button1_pressed now ret g).1.led1_state = (!g.led1_state)
    ∧ (button1_pressed now ret g).1.last_time_button1 = now
    ∧ (∀ r : Int, (button1_pressed now r g).1 = (button1_pressed now ret g).1)
    ∧ (button1_pressed now2 ret2 (button1_pressed now ret g).1).1.led1_state
        = (!(button1_pressed now ret g).1.led1_state)
    ∧ (button1_pressed now2 ret2 (button1_pressed now ret g).1).1.led1_state
        = g.led1_state := by
  have _ := hret
  have e1 := button1_pressed_of_ge g now ret hacc
  have h2x : DEBOUNCE_TIME_MS ≤ sub64 now2 (button1_pressed now ret g).1.last_time_button1 := by
    rw [e1]; exact hacc2
  refine ⟨by rw [e1], by rw [e1], fun r => (button1_pressed_ret_irrelevant g now r ret).1, ?_, ?_⟩
  · rw [button1_pressed_of_ge _ now2 ret2 h2x]
  · rw [button1_pressed_of_ge _ now2 ret2 h2x, e1]
    simp

theorem C7_write_failure_state_witness :
    DEBOUNCE_TIME_MS ≤ sub64 100 init.last_time_button1 ∧ (-5 : Int) < 0
    ∧ DEBOUNCE_TIME_MS ≤ sub64 200 100
    ∧ (button1_pressed 100 (-5) init).1.led1_state = (!init.led1_state)
    ∧ (button1_pressed 100 (-5) init).1.last_time_button1 = 100
    ∧ (∀ r : Int, (button1_pressed 100 r init).1 = (button1_pressed 100 (-5) init).1)
    ∧ (button1_pressed 200 0 (button1_pressed 100 (-5) init).1).1.led1_state
        = (!(button1_pressed 100 (-5) init).1.led1_state)
    ∧ (button1_pressed 200 0 (button1_pressed 100 (-5) init).1).1.led1_state
        = init.led1_state :=
  ⟨by decide, by decide, by decide,
   C7_write_failure_state init 100 (-5) 200 0 (by decide) (by decide) (by decide)⟩

/-- C8, as stated, fails: at the accepted event read at uptime 100 on the
initial globals, with `gpio_pin_set_dt` returning the error code -5, the
effects of `button1_pressed` are the write and the one `LOG_INF` record of
every accepted event; there is no `LOG_ERR` record, the number of log records
is 1 and not 2, and the log records equal those of a successful write. The
same holds for `button2_pressed`. -/
theorem C8_no_failure_log_at_100 :
    DEBOUNCE_TIME_MS ≤ sub64 100 init.last_time_button1
    ∧ (button1_pressed 100 (-5) init).2 =
        [Effect.gpio_pin_set_dt GpioSpec.led1 true (-5),
         Effect.log LogLevel.INF "Button 1 pressed, LED1 is %s" "ON"]
    ∧ (button1_pressed 100 (-5) init).2.filter isErrLog = []
    ∧ ((button1_pressed 100 (-5) init).2.filter isLog).length = 1
    ∧ (button1_pressed 100 (-5) init).2.filter isLog
        = (button1_pressed 100 0 init).2.filter isLog
    ∧ (button2_pressed 100 (-5) init).2 =
        [Effect.gpio_pin_set_dt GpioSpec.led2 true (-5),
         Effect.log LogLevel.INF "Button 2 pressed, LED2 is %s" "ON"]
    ∧ ¬ (∀ (g : Globals) (now ret : Int),
          DEBOUNCE_TIME_MS ≤ sub64 now g.last_time_button1 → ret < 0 →
          ((button1_pressed now ret g).2.filter isLog).length = 2) := by
  refine ⟨by decide, by decide, by decide, by decide, by decide, by decide, ?_⟩
  intro h
  exact absurd (h init 100 (-5) (by decide) (by decide)) (by decide)

/-- C8 (amended): at every accepted event, on either button and whatever
`gpio_pin_set_dt` returns (an error code included), the callback emits exactly
one log record, of severity `LOG_INF`; it emits no `LOG_ERR` record, and its
log records are the same for every return code of the write. -/
theorem C8_one_log_whatever_the_write_returns (g : Globals) (e : Event)
    (hacc : accepted g e = true) :
    ((dispatch g e).2.filter isLog).length = 1
    ∧ (dispatch g e).2.filter isErrLog = []
    ∧ (∀ x ∈ (dispatch g e).2.filter isLog, ∃ f a, x = Effect.log LogLevel.INF f a)
    ∧ (∀ r : Int, (dispatch g (Event.mk e.button e.now r)).2.filter isLog
        = (dispatch g e).2.filter isLog) := by
  rcases e with ⟨b, now, ret⟩
  cases b
  · have h : ¬ (sub64 now g.last_time_button1 < DEBOUNCE_TIME_MS) := by
      simpa [accepted] using hacc
    simp [dispatch, button1_pressed, h, isLog, isErrLog]
  · have h : ¬ (sub64 now g.last_time_button2 < DEBOUNCE_TIME_MS) := by
      simpa [accepted] using hacc
    simp [dispatch, button2_pressed, h, isLog, isErrLog]

theorem C8_one_log_whatever_the_write_returns_witness :
    accepted init (Event.mk Button.button2 100 (-5)) = true
    ∧ ((dispatch init (Event.mk Button.button2 100 (-5))).2.filter isLog).length = 1
    ∧ (dispatch init (Event.mk Button.button2 100 (-5))).2.filter isErrLog = []
    ∧ (∀ x ∈ (dispatch init (Event.mk Button.button2 100 (-5))).2.filter isLog,
        ∃ f a, x = Effect.log LogLevel.INF f a)
    ∧ (∀ r : Int, (dispatch init (Event.mk Button.button2 100 r)).2.filter isLog
        = (dispatch init (Event.mk Button.button2 100 (-5))).2.filter isLog) :=
  ⟨by decide, C8_one_log_whatever_the_write_returns init (Event.mk Button.button2 100 (-5))
    (by decide)⟩

/-! ## C9: channel independence -/

theorem button1_pressed_frame (g : Globals) (now ret : Int) :
    channel2 (button1_pressed now ret g).1 = channel2 g
    ∧ (button1_pressed now ret g).2.filter ofChannel2 = [] := by
  by_cases h : sub64 now g.last_time_button1 < DEBOUNCE_TIME_MS
  · simp [button1_pressed, h]
  · simp [button1_pressed, h, channel2, ofChannel2, isWriteTo, isLogOf2, fmt2]

theorem button2_pressed_frame (g : Globals) (now ret : Int) :
    channel1 (button2_pressed now ret g).1 = channel1 g
    ∧ (button2_pressed now ret g).2.filter ofChannel1 = [] := by
  by_cases h : sub64 now g.last_time_button2 < DEBOUNCE_TIME_MS
  · simp [button2_pressed, h]
  · simp [button2_pressed, h, channel1, ofChannel1, isWriteTo, isLogOf1, fmt1]

/-- What `button1_pressed` does to channel 1 depends on channel 1 only, and
all its effects concern channel 1. -/
theorem button1_pressed_local (g h : Globals) (now ret : Int)
    (hc : channel1 g = channel1 h) :
    channel1 (button1_pressed now ret g).1 = channel1 (button1_pressed now ret h).1
    ∧ (button1_pressed now ret g).2 = (button1_pressed now ret h).2
    ∧ (button1_pressed now ret g).2.filter ofChannel1 = (button1_pressed now ret g).2 := by
  simp only [channel1, Prod.mk.injEq] at hc
  obtain ⟨hl, ht⟩ := hc
  by_cases hd : sub64 now h.last_time_button1 < DEBOUNCE_TIME_MS
  · simp [button1_pressed, hd, ht, hl, channel1]
  · simp [button1_pressed, hd, ht, hl, channel1, ofChannel1, isWriteTo, isLogOf1, fmt1]

/-- What `button2_pressed` does to channel 2 depends on channel 2 only, and
all its effects concern channel 2. -/
theorem button2_pressed_local (g h : Globals) (now ret : Int)
    (hc : channel2 g = channel2 h) :
    channel2 (button2_pressed now ret g).1 = channel2 (button2_pressed now ret h).1
    ∧ (button2_pressed now ret g).2 = (button2_pressed now ret h).2
    ∧ (button2_pressed now ret g).2.filter ofChannel2 = (button2_pressed now ret g).2 := by
  simp only [channel2, Prod.mk.injEq] at hc
  obtain ⟨hl, ht⟩ := hc
  by_cases hd : sub64 now h.last_time_button2 < DEBOUNCE_TIME_MS
  · simp [button2_pressed, hd, ht, hl, channel2]
  · simp [button2_pressed, hd, ht, hl, channel2, ofChannel2, isWriteTo, isLogOf2, fmt2]

/-- Channel 1 after an interleaving is channel 1 after its button-1 events
alone, and so are the effects that concern channel 1. -/
theorem run_channel1_filter (evs : List Event) :
    ∀ g h : Globals, channel1 g = channel1 h →
      channel1 (run g evs).1 = channel1 (run h (evs.filter (onButton Button.button1))).1
      ∧ (run g evs).2.filter ofChannel1
          = (run h (evs.filter (onButton Button.button1))).2 := by
  induction evs with
  | nil => intro g h hc; simpa [run] using hc
  | cons e rest ih =>
    intro g h hc
    rcases e with ⟨b, now, ret⟩
    cases b
    · obtain ⟨l1, l2, l3⟩ := button1_pressed_local g h now ret hc
      obtain ⟨i1, i2⟩ := ih (button1_pressed now ret g).1 (button1_pressed now ret h).1 l1
      simp only [onButton, decide_True, List.filter_cons_of_pos, run, dispatch,
        List.filter_append]
      rw [i1, i2, l3, l2]
      exact ⟨rfl, rfl⟩
    · obtain ⟨f1, f2⟩ := button2_pressed_frame g now ret
      obtain ⟨i1, i2⟩ := ih (button2_pressed now ret g).1 h (f1.trans hc)
      have hne : onButton Button.button1 (Event.mk Button.button2 now ret) = false := by
        simp [onButton]
      rw [List.filter_cons_of_neg (by simp [hne])]
      simp only [run, dispatch, List.filter_append]
      rw [i1, i2, f2]
      exact ⟨rfl, rfl⟩

/-- Channel 2 after an interleaving is channel 2 after its button-2 events
alone, and so are the effects that concern channel 2. -/
theorem run_channel2_filter (evs : List Event) :
    ∀ g h : Globals, channel2 g = channel2 h →
      channel2 (run g evs).1 = channel2 (run h (evs.filter (onButton Button.button2))).1
      ∧ (run g evs).2.filter ofChannel2
          = (run h (evs.filter (onButton Button.button2))).2 := by
  induction evs with
  | nil => intro g h hc; simpa [run] using hc
  | cons e rest ih =>
    intro g h hc
    rcases e with ⟨b, now, ret⟩
    cases b
    · obtain ⟨f1, f2⟩ := button1_pressed_frame g now ret
      obtain ⟨i1, i2⟩ := ih (button1_pressed now ret g).1 h (f1.trans hc)
      have hne : onButton Button.button2 (Event.mk Button.button1 now ret) = false := by
        simp [onButton]
      rw [List.filter_cons_of_neg (by simp [hne])]
      simp only [run, dispatch, List.filter_append]
      rw [i1, i2, f2]
      exact ⟨rfl, rfl⟩
    · obtain ⟨l1, l2, l3⟩ := button2_pressed_local g h now ret hc
      obtain ⟨i1, i2⟩ := ih (button2_pressed now ret g).1 (button2_pressed now ret h).1 l1
      simp only [onButton, decide_True, List.filter_cons_of_pos, run, dispatch,
        List.filter_append]
      rw [i1, i2, l3, l2]
      exact ⟨rfl, rfl⟩

/-- C9 (channel independence): in any globals and for any timestamp and write
return code, `button1_pressed` leaves `led2_state` and `last_time_button2`
unchanged, makes no write to `led2` and emits no log record about channel 2;
symmetrically `button2_pressed` leaves `led1_state` and `last_time_button1`
unchanged, makes no write to `led1` and emits no log record about channel 1.
Hence after any interleaving of events on the two buttons, the state of each
channel, and the effects that concern it, are those of delivering that
channel's events alone. -/
theorem C9_channel_independence (g : Globals) (now ret : Int) (evs : List Event) :
    ((button1_pressed now ret g).1.led2_state = g.led2_state
      ∧ (button1_pressed now ret g).1.last_time_button2 = g.last_time_button2
      ∧ (button1_pressed now ret g).2.filter (isWriteTo GpioSpec.led2) = []
      ∧ (button1_pressed now ret g).2.filter isLogOf2 = [])
    ∧ ((button2_pressed now ret g).1.led1_state = g.led1_state
      ∧ (button2_pressed now ret g).1.last_time_button1 = g.last_time_button1
      ∧ (button2_pressed now ret g).2.filter (isWriteTo GpioSpec.led1) = []
      ∧ (button2_pressed now ret g).2.filter isLogOf1 = [])
    ∧ (channel1 (run g evs).1 = channel1 (run g (evs.filter (onButton Button.button1))).1
      ∧ (run g evs).2.filter ofChannel1 = (run g (evs.filter (onButton Button.button1))).2)
    ∧ (channel2 (run g evs).1 = channel2 (run g (evs.filter (onButton Button.button2))).1
      ∧ (run g evs).2.filter ofChannel2
          = (run g (evs.filter (onButton Button.button2))).2) := by
  refine ⟨?_, ?_, run_channel1_filter evs g g rfl, run_channel2_filter evs g g rfl⟩
  · by_cases h : sub64 now g.last_time_button1 < DEBOUNCE_TIME_MS
    · simp [button1_pressed, h]
    · simp [button1_pressed, h, isWriteTo, isLogOf2, fmt2]
  · by_cases h : sub64 now g.last_time_button2 < DEBOUNCE_TIME_MS
    · simp [button2_pressed, h]
    · simp [button2_pressed, h, isWriteTo, isLogOf1, fmt1]

/-! ## C10: the debounce timestamps never go back -/

/-- One delivery of an uptime value keeps both timestamps uptime values, and
a timestamp that changes grows by at least the debounce window. -/
theorem dispatch_last_time (g : Globals) (e : Event)
    (h1 : isUptime g.last_time_button1) (h2 : isUptime g.last_time_button2)
    (he : isUptime e.now) :
    (isUptime (dispatch g e).1.last_time_button1
      ∧ isUptime (dispatch g e).1.last_time_button2)
    ∧ ((dispatch g e).1.last_time_button1 = g.last_time_button1
        ∨ g.last_time_button1 + DEBOUNCE_TIME_MS ≤ (dispatch g e).1.last_time_button1)
    ∧ ((dispatch g e).1.last_time_button2 = g.last_time_button2
        ∨ g.last_time_button2 + DEBOUNCE_TIME_MS ≤ (dispatch g e).1.last_time_button2) := by
  rcases e with ⟨b, now, ret⟩
  cases b
  · by_cases h : sub64 now g.last_time_button1 < DEBOUNCE_TIME_MS
    · simp [dispatch, button1_pressed, h, h1, h2]
    · have hs := sub64_of_uptime now g.last_time_button1 he h1
      rw [hs] at h
      have hge : g.last_time_button1 + DEBOUNCE_TIME_MS ≤ now := by omega
      simp [dispatch, button1_pressed, hs, h, h2, hge]
      exact he
  · by_cases h : sub64 now g.last_time_button2 < DEBOUNCE_TIME_MS
    · simp [dispatch, button2_pressed, h, h1, h2]
    · have hs := sub64_of_uptime now g.last_time_button2 he h2
      rw [hs] at h
      have hge : g.last_time_button2 + DEBOUNCE_TIME_MS ≤ now := by omega
      simp [dispatch, button2_pressed, hs, h, h1, hge]
      exact he

theorem run_last_time_uptime (evs : List Event) :
    ∀ g : Globals, (∀ x ∈ evs, isUptime x.now) →
      isUptime g.last_time_button1 → isUptime g.last_time_button2 →
      isUptime (run g evs).1.last_time_button1
      ∧ isUptime (run g evs).1.last_time_button2 := by
  induction evs with
  | nil => intro g _ h1 h2; exact ⟨h1, h2⟩
  | cons e rest ih =>
    intro g hall h1 h2
    have hd := (dispatch_last_time g e h1 h2 (hall e (List.mem_cons_self e rest))).1
    exact ih (dispatch g e).1 (fun x hx => hall x (List.mem_cons_of_mem e hx)) hd.1 hd.2

/-- C10 (timestamp monotonicity): deliver from the initial globals any finite
sequence `pre` of events whose timestamps are uptime values (non-negative
`int64_t`, in any order), then one more such event `e`.  Across the invocation
for `e`, `last_time_button1` does not decrease, and if it changes it
increases by at least `DEBOUNCE_TIME_MS`; likewise `last_time_button2`. -/
theorem C10_last_time_monotone (pre : List Event) (e : Event)
    (hpre : ∀ x ∈ pre, isUptime x.now) (he : isUptime e.now) :
    ((run init pre).1.last_time_button1 ≤ (dispatch (run init pre).1 e).1.last_time_button1
      ∧ ((dispatch (run init pre).1 e).1.last_time_button1
            ≠ (run init pre).1.last_time_button1 →
          (run init pre).1.last_time_button1 + DEBOUNCE_TIME_MS
            ≤ (dispatch (run init pre).1 e).1.last_time_button1))
    ∧ ((run init pre).1.last_time_button2 ≤ (dispatch (run init pre).1 e).1.last_time_button2
      ∧ ((dispatch (run init pre).1 e).1.last_time_button2
            ≠ (run init pre).1.last_time_button2 →
          (run init pre).1.last_time_button2 + DEBOUNCE_TIME_MS
            ≤ (dispatch (run init pre).1 e).1.last_time_button2)) := by
  have hu := run_last_time_uptime pre init hpre (by decide) (by decide)
  have hd := (dispatch_last_time (run init pre).1 e hu.1 hu.2 he).2
  have h50 : DEBOUNCE_TIME_MS = 50 := rfl
  refine ⟨⟨?_, ?_⟩, ⟨?_, ?_⟩⟩
  · rcases hd.1 with h | h <;> omega
  · intro hne
    rcases hd.1 with h | h
    · exact absurd h hne
    · exact h
  · rcases hd.2 with h | h <;> omega
  · intro hne
    rcases hd.2 with h | h
    · exact absurd h hne
    · exact h

theorem C10_last_time_monotone_witness :
    (∀ x ∈ [Event.mk Button.button1 100 0, Event.mk Button.button2 20 0],
        isUptime x.now)
    ∧ isUptime (Event.mk Button.button1 170 0).now
    ∧ ((run init [Event.mk Button.button1 100 0, Event.mk Button.button2 20 0]).1.last_time_button1
          ≤ (dispatch (run init [Event.mk Button.button1 100 0,
                Event.mk Button.button2 20 0]).1
              (Event.mk Button.button1 170 0)).1.last_time_button1
      ∧ ((dispatch (run init [Event.mk Button.button1 100 0,
                Event.mk Button.button2 20 0]).1
              (Event.mk Button.button1 170 0)).1.last_time_button1
            ≠ (run init [Event.mk Button.button1 100 0,
                Event.mk Button.button2 20 0]).1.last_time_button1 →
          (run init [Event.mk Button.button1 100 0,
                Event.mk Button.button2 20 0]).1.last_time_button1 + DEBOUNCE_TIME_MS
            ≤ (dispatch (run init [Event.mk Button.button1 100 0,
                Event.mk Button.button2 20 0]).1
              (Event.mk Button.button1 170 0)).1.last_time_button1))
    ∧ ((run init [Event.mk Button.button1 100 0, Event.mk Button.button2 20 0]).1.last_time_button2
          ≤ (dispatch (run init [Event.mk Button.button1 100 0,
                Event.mk Button.button2 20 0]).1
              (Event.mk Button.button1 170 0)).1.last_time_button2
      ∧ ((dispatch (run init [Event.mk Button.button1 100 0,
                Event.mk Button.button2 20 0]).1
              (Event.mk Button.button1 170 0)).1.last_time_button2
            ≠ (run init [Event.mk Button.button1 100 0,
                Event.mk Button.button2 20 0]).1.last_time_button2 →
          (run init [Event.mk Button.button1 100 0,
                Event.mk Button.button2 20 0]).1.last_time_button2 + DEBOUNCE_TIME_MS
            ≤ (dispatch (run init [Event.mk Button.button1 100 0,
                Event.mk Button.button2 20 0]).1
              (Event.mk Button.button1 170 0)).1.last_time_button2)) :=
  ⟨by decide, by decide,
   C10_last_time_monotone [Event.mk Button.button1 100 0, Event.mk Button.button2 20 0]
     (Event.mk Button.button1 170 0) (by decide) (by decide)⟩

end ButtonLedToggle
